import Mathlib

/-!
Shallow embedding of the mcRiggingToolkit repository (a Maya rigging plugin):
`main.py` and `src/mcRiggingToolkit/core/centroid_joint_creation.py`.

The Python code is glue around Maya's `cmds` / OpenMaya API and PySide6.
The host scene graph is modelled as a list of named nodes with a parent
pointer, a node type and the attributes the code touches; the active
selection is a list of selection entries; floating-point coordinates and
color channels are modelled with rationals.  Python exceptions are modelled
with an explicit error type; functions that mutate the scene and may raise
return the scene reached at the point of the raise together with the error,
mirroring the fact that Python mutations performed before an exception
persist.
-/

namespace McRig

/-- Python exceptions raised (or potentially raised) by the code. -/
inductive PyErr where
  | runtimeError (msg : String)
  | nameError (missing : String)
  | typeError (msg : String)
  deriving DecidableEq, Repr

/-! ## Points (maya.api.OpenMaya MPoint, world space)

`om.MPoint()` is the origin; `+=` adds component-wise; `/=` divides each
component by a scalar.  The homogeneous `w` component is never used by the
code and is not modelled. -/

/-- A world-space 3D point (`om.MPoint`), coordinates as rationals. -/
structure MPoint where
  x : ℚ
  y : ℚ
  z : ℚ
  deriving DecidableEq, Repr

instance : Add MPoint := ⟨fun a b => ⟨a.x + b.x, a.y + b.y, a.z + b.z⟩⟩

/-- `om.MPoint()`: the origin. -/
def MPoint.zero : MPoint := ⟨0, 0, 0⟩

/-- `center /= n`: divide every coordinate by a scalar. -/
def MPoint.divByNat (p : MPoint) (n : ℕ) : MPoint :=
  ⟨p.x / n, p.y / n, p.z / n⟩

/-! ## Selection model for `selected_vertices_center`

`om.MGlobal.getActiveSelectionList()` yields selection items; for each item
`sel.getComponent(i)` gives a DAG path and a component.  The code keeps only
components whose `apiType()` is `om.MFn.kMeshVertComponent` and collects the
world-space positions of their vertex indices; every other item is skipped. -/

/-- One item of the active selection, as `selected_vertices_center` sees it:
either a mesh-vertex component carrying the world positions of its selected
vertices, or any other kind of item (non-mesh, non-vertex, non-component). -/
inductive SelItem where
  | meshVerts (pts : List MPoint)
  | other
  deriving DecidableEq, Repr

/-- The `points` list accumulated by the loop of `selected_vertices_center`:
positions from mesh-vertex components in order, everything else skipped. -/
def collectPoints (sel : List SelItem) : List MPoint :=
  sel.foldl
    (fun acc it =>
      match it with
      | SelItem.meshVerts pts => acc ++ pts
      | SelItem.other => acc)
    []

/-- The averaging tail of `selected_vertices_center` (lines 35-42):
`center = om.MPoint(); for p in points: center += p; center /= len(points)`. -/
def averagePoints (points : List MPoint) : MPoint :=
  (points.foldl (· + ·) MPoint.zero).divByNat points.length

/-- `selected_vertices_center` from `centroid_joint_creation.py`:
raises if nothing is selected, collects mesh-vertex world positions
(skipping other items), raises if none were found, otherwise returns
their average. -/
def selected_vertices_center (sel : List SelItem) : Except PyErr MPoint :=
  if sel.length = 0 then
    Except.error (PyErr.runtimeError "We did not find anything selected.")
  else
    let points := collectPoints sel
    if points.isEmpty then
      Except.error (PyErr.runtimeError "No mesh vertices selected currently.")
    else
      Except.ok (averagePoints points)

/-! ### Lemmas about the averaging -/

lemma collectPoints_cons (it : SelItem) (sel : List SelItem) :
    collectPoints (it :: sel) =
      (match it with
       | SelItem.meshVerts pts => pts ++ collectPoints sel
       | SelItem.other => collectPoints sel) := by
  have h : ∀ (l : List SelItem) (a : List MPoint),
      l.foldl
        (fun acc it =>
          match it with
          | SelItem.meshVerts pts => acc ++ pts
          | SelItem.other => acc) a
        = a ++ l.foldl
            (fun acc it =>
              match it with
              | SelItem.meshVerts pts => acc ++ pts
              | SelItem.other => acc) [] := by
    intro l
    induction l with
    | nil => intro a; simp
    | cons hd tl ih =>
      intro a
      cases hd with
      | meshVerts pts =>
        simp only [List.foldl_cons]
        rw [ih (a ++ pts), ih ([] ++ pts)]
        simp [List.append_assoc]
      | other =>
        simp only [List.foldl_cons]
        rw [ih a]
  cases it with
  | meshVerts pts =>
    simp only [collectPoints, List.foldl_cons]
    rw [h sel ([] ++ pts)]
    simp
  | other => rfl

lemma foldl_add_eq (pts : List MPoint) (a : MPoint) :
    pts.foldl (· + ·) a =
      ⟨a.x + (pts.map MPoint.x).sum, a.y + (pts.map MPoint.y).sum,
       a.z + (pts.map MPoint.z).sum⟩ := by
  induction pts generalizing a with
  | nil => simp
  | cons p tl ih =>
    simp only [List.foldl_cons, List.map_cons, List.sum_cons]
    rw [ih]
    show (⟨(a + p).x + _, (a + p).y + _, (a + p).z + _⟩ : MPoint) = _
    show (⟨a.x + p.x + _, a.y + p.y + _, a.z + p.z + _⟩ : MPoint) = _
    congr 1 <;> ring

/-- The fold-then-divide of the source equals the component-wise mean. -/
lemma averagePoints_eq_mean (pts : List MPoint) :
    averagePoints pts =
      ⟨(pts.map MPoint.x).sum / pts.length,
       (pts.map MPoint.y).sum / pts.length,
       (pts.map MPoint.z).sum / pts.length⟩ := by
  unfold averagePoints MPoint.divByNat
  rw [foldl_add_eq]
  show (⟨(MPoint.zero.x + _) / _, (MPoint.zero.y + _) / _,
        (MPoint.zero.z + _) / _⟩ : MPoint) = _
  simp [MPoint.zero]

/-! ## `unique_ctrl_name` (main.py, lines 211-231)

The Python loop queries `cmds.objExists` (a name-existence oracle), first on
`{base}_ctrl` and then on `{base}_{i:02d}_ctrl` for `i = 1, 2, ...` until a
free name is found.  Python's `f"{i:02d}"` zero-pads to a minimum width of
two digits.  The unbounded `while True` is embedded with a fuel parameter;
`none` marks fuel exhaustion (the Python loop not having returned within
that many iterations). -/

/-- Python `f"{i:02d}"`: decimal, zero-padded to at least two digits. -/
def pad2 (i : ℕ) : String :=
  if i < 10 then "0" ++ toString i else toString i

/-- The candidate name `f"{base_name}_{i:02d}_ctrl"` tried at counter `i`. -/
def ctrlCandidate (base : String) (i : ℕ) : String :=
  base ++ "_" ++ pad2 i ++ "_ctrl"

/-- The `while True` loop of `unique_ctrl_name`, at counter `i` with the
given fuel. -/
def uniqueCtrlLoop (ex : String → Bool) (base : String) :
    ℕ → ℕ → Option String
  | 0, _ => none
  | fuel + 1, i =>
    let name := ctrlCandidate base i
    if ex name then uniqueCtrlLoop ex base fuel (i + 1) else some name

/-- `RiggingToolsUI.unique_ctrl_name`, over a name-existence oracle `ex`
standing for `cmds.objExists`. -/
def unique_ctrl_name (ex : String → Bool) (base : String) (fuel : ℕ) :
    Option String :=
  let name := base ++ "_ctrl"
  if ex name then uniqueCtrlLoop ex base fuel 1 else some name

lemma uniqueCtrlLoop_finds (ex : String → Bool) (base : String) :
    ∀ (fuel i N : ℕ), i ≤ N → N < i + fuel →
      ex (ctrlCandidate base N) = false →
      (∀ j, j < N → i ≤ j → ex (ctrlCandidate base j) = true) →
      uniqueCtrlLoop ex base fuel i = some (ctrlCandidate base N) := by
  intro fuel
  induction fuel with
  | zero => intro i N hiN hlt _ _; omega
  | succ fuel ih =>
    intro i N hiN hlt hfree htaken
    by_cases hi : i = N
    · subst hi
      simp [uniqueCtrlLoop, hfree]
    · have hiN' : i < N := lt_of_le_of_ne hiN hi
      have hex : ex (ctrlCandidate base i) = true :=
        htaken i hiN' le_rfl
      simp only [uniqueCtrlLoop, hex, if_true]
      exact ih (i + 1) N (by omega) (by omega) hfree
        (fun j hj hj' => htaken j hj (by omega))

/-- C1: if the oracle reports `{base}_ctrl` free, `unique_ctrl_name` returns
exactly `{base}_ctrl`; otherwise, for the smallest positive counter `N`
whose zero-padded two-digit candidate `{base}_{NN}_ctrl` the oracle reports
free, it returns that candidate (given fuel for `N` loop iterations). -/
theorem unique_ctrl_name_spec (ex : String → Bool) (base : String) :
    (ex (base ++ "_ctrl") = false →
      ∀ fuel, unique_ctrl_name ex base fuel = some (base ++ "_ctrl")) ∧
    (ex (base ++ "_ctrl") = true →
      ∀ N fuel, 1 ≤ N → N ≤ fuel →
        ex (ctrlCandidate base N) = false →
        (∀ j, j < N → 1 ≤ j → ex (ctrlCandidate base j) = true) →
        unique_ctrl_name ex base fuel = some (ctrlCandidate base N)) := by
  constructor
  · intro hfree fuel
    simp [unique_ctrl_name, hfree]
  · intro htaken N fuel h1 hfuel hfree hsmall
    simp only [unique_ctrl_name, htaken, if_true]
    exact uniqueCtrlLoop_finds ex base fuel 1 N h1 (by omega) hfree hsmall

/-- C1 witness: the theorem with a blank oracle at base `bar`, and with an
oracle owning `foo_ctrl` and `foo_01_ctrl` at base `foo` (smallest free
counter 2). -/
theorem unique_ctrl_name_spec_witness :
    unique_ctrl_name (fun _ => false) "bar" 0 = some ("bar" ++ "_ctrl") ∧
    unique_ctrl_name (fun s => ["foo_ctrl", "foo_01_ctrl"].contains s)
        "foo" 2 = some (ctrlCandidate "foo" 2) :=
  ⟨(unique_ctrl_name_spec (fun _ => false) "bar").1 rfl 0,
   (unique_ctrl_name_spec (fun s => ["foo_ctrl", "foo_01_ctrl"].contains s)
        "foo").2 (by decide) 2 2 (by decide) (by decide) (by decide)
     (by decide)⟩

/-- C2: for every non-empty sequence of 3D points, `selected_vertices_center`
returns their component-wise arithmetic mean (the sum of each coordinate
divided by the number of points), and the result is invariant under
permutation of the input order. -/
theorem selected_vertices_center_mean_perm (pts pts' : List MPoint)
    (hne : pts ≠ []) (hperm : pts.Perm pts') :
    selected_vertices_center [SelItem.meshVerts pts] =
      Except.ok ⟨(pts.map MPoint.x).sum / pts.length,
                 (pts.map MPoint.y).sum / pts.length,
                 (pts.map MPoint.z).sum / pts.length⟩ ∧
    selected_vertices_center [SelItem.meshVerts pts] =
      selected_vertices_center [SelItem.meshVerts pts'] := by
  have hcol : ∀ l : List MPoint, collectPoints [SelItem.meshVerts l] = l := by
    intro l
    rw [collectPoints_cons]
    simp [collectPoints]
  have hne' : pts' ≠ [] := by
    intro h
    exact hne (List.Perm.eq_nil (h ▸ hperm))
  have heval : ∀ l : List MPoint, l ≠ [] →
      selected_vertices_center [SelItem.meshVerts l] =
        Except.ok (averagePoints l) := by
    intro l hl
    unfold selected_vertices_center
    rw [hcol]
    simp [hl]
  constructor
  · rw [heval pts hne, averagePoints_eq_mean]
  · rw [heval pts hne, heval pts' hne']
    rw [averagePoints_eq_mean, averagePoints_eq_mean]
    have hx : (pts.map MPoint.x).sum = (pts'.map MPoint.x).sum :=
      (hperm.map MPoint.x).sum_eq
    have hy : (pts.map MPoint.y).sum = (pts'.map MPoint.y).sum :=
      (hperm.map MPoint.y).sum_eq
    have hz : (pts.map MPoint.z).sum = (pts'.map MPoint.z).sum :=
      (hperm.map MPoint.z).sum_eq
    rw [hx, hy, hz, hperm.length_eq]

/-- C2 witness: the theorem at the concrete points (1,2,3), (3,4,5) and
their reversal. -/
theorem selected_vertices_center_mean_perm_witness :
    selected_vertices_center [SelItem.meshVerts [⟨1, 2, 3⟩, ⟨3, 4, 5⟩]] =
      Except.ok ⟨(([⟨1, 2, 3⟩, ⟨3, 4, 5⟩] : List MPoint).map MPoint.x).sum / 2,
                 (([⟨1, 2, 3⟩, ⟨3, 4, 5⟩] : List MPoint).map MPoint.y).sum / 2,
                 (([⟨1, 2, 3⟩, ⟨3, 4, 5⟩] : List MPoint).map MPoint.z).sum / 2⟩ ∧
    selected_vertices_center [SelItem.meshVerts [⟨1, 2, 3⟩, ⟨3, 4, 5⟩]] =
      selected_vertices_center [SelItem.meshVerts [⟨3, 4, 5⟩, ⟨1, 2, 3⟩]] :=
  selected_vertices_center_mean_perm [⟨1, 2, 3⟩, ⟨3, 4, 5⟩]
    [⟨3, 4, 5⟩, ⟨1, 2, 3⟩] (by decide) (by decide)

/-- C6: `selected_vertices_center` raises an error if and only if the
selection yields no mesh-vertex points; the empty selection gives one error,
a non-empty selection without mesh vertices gives a distinct error, and
items that are not mesh-vertex components are silently skipped (whenever any
mesh-vertex points are present the call succeeds with their average). -/
theorem selected_vertices_center_error_cases (sel : List SelItem) :
    ((∃ e, selected_vertices_center sel = Except.error e) ↔
        collectPoints sel = []) ∧
    (sel = [] →
      selected_vertices_center sel =
        Except.error (PyErr.runtimeError "We did not find anything selected.")) ∧
    (sel ≠ [] → collectPoints sel = [] →
      selected_vertices_center sel =
        Except.error (PyErr.runtimeError "No mesh vertices selected currently.")) ∧
    (collectPoints sel ≠ [] →
      selected_vertices_center sel =
        Except.ok (averagePoints (collectPoints sel))) := by
  by_cases hsel : sel = []
  · subst hsel
    refine ⟨?_, fun _ => rfl, fun h _ => absurd rfl h, fun h => absurd rfl h⟩
    constructor
    · intro _; rfl
    · intro _
      exact ⟨PyErr.runtimeError "We did not find anything selected.", rfl⟩
  · have hlen : sel.length ≠ 0 := by
      simpa [List.length_eq_zero] using hsel
    by_cases hpts : collectPoints sel = []
    · refine ⟨?_, fun h => absurd h hsel, fun _ _ => ?_, fun h => absurd hpts h⟩
      · constructor
        · intro _; exact hpts
        · intro _
          refine ⟨PyErr.runtimeError "No mesh vertices selected currently.", ?_⟩
          unfold selected_vertices_center
          simp [hlen, hpts]
      · unfold selected_vertices_center
        simp [hlen, hpts]
    · have hok : selected_vertices_center sel =
          Except.ok (averagePoints (collectPoints sel)) := by
        unfold selected_vertices_center
        simp [hlen, hpts]
      refine ⟨?_, fun h => absurd h hsel, fun _ h => absurd h hpts, fun _ => hok⟩
      constructor
      · intro ⟨e, he⟩
        rw [hok] at he
        exact absurd he (by simp)
      · intro h; exact absurd h hpts

/-- C6 witness: the theorem at a selection holding only a non-mesh item
(distinct second error) and at a selection holding one mesh vertex
(success). -/
theorem selected_vertices_center_error_cases_witness :
    selected_vertices_center [SelItem.other] =
      Except.error (PyErr.runtimeError "No mesh vertices selected currently.") ∧
    selected_vertices_center [SelItem.meshVerts [⟨0, 1, 2⟩]] =
      Except.ok (averagePoints (collectPoints [SelItem.meshVerts [⟨0, 1, 2⟩]])) :=
  ⟨(selected_vertices_center_error_cases [SelItem.other]).2.2.1
      (by decide) (by decide),
   (selected_vertices_center_error_cases [SelItem.meshVerts [⟨0, 1, 2⟩]]).2.2.2
      (by decide)⟩

/-! ## Host scene graph

Only what the code touches is modelled: node name, parent, node type, world
translation, and the three display-override attributes set by
`set_controller_color`.  Maya's native renaming of a newly created node when
the requested name is already taken is host behaviour outside this
repository and is not modelled: a created node keeps its requested name,
so two nodes may share a name. -/

/-- Python `str.strip()`: remove leading and trailing whitespace. -/
def pyStrip (s : String) : String :=
  ⟨((s.data.dropWhile Char.isWhitespace).reverse.dropWhile
      Char.isWhitespace).reverse⟩

/-- The node types the code distinguishes (`type="joint"`,
`type="nurbsCurve"`; everything else it creates is a transform). -/
inductive NodeType where
  | transform
  | joint
  | nurbsCurve
  deriving DecidableEq, Repr

/-- One scene node with the attributes the code reads or writes. -/
structure SceneNode where
  name : String
  parent : Option String
  typ : NodeType
  pos : MPoint
  overrideEnabled : Bool
  overrideRGBColors : Bool
  overrideColorRGB : Option (ℚ × ℚ × ℚ)
  deriving DecidableEq, Repr

/-- A fresh node: at the world origin, overrides off. -/
def SceneNode.fresh (name : String) (parent : Option String)
    (typ : NodeType) : SceneNode :=
  ⟨name, parent, typ, MPoint.zero, false, false, none⟩

/-- The scene graph: nodes in creation order. -/
abbrev Scene := List SceneNode

/-- `cmds.objExists(n)`. -/
def objExists (s : Scene) (n : String) : Bool :=
  s.any (fun nd => nd.name == n)

/-- `cmds.group(empty=True, name=name, world=True)`: create an empty
transform at the world root; returns the (requested) name. -/
def groupEmpty (s : Scene) (name : String) : Scene × String :=
  (s ++ [SceneNode.fresh name none NodeType.transform], name)

/-- `cmds.group(children, name=name, ...)`: reparent every node whose name
is listed under a newly created transform; returns the (requested) name. -/
def groupNodes (s : Scene) (children : List String) (name : String) :
    Scene × String :=
  ((s.map fun nd =>
      if children.contains nd.name then { nd with parent := some name }
      else nd)
    ++ [SceneNode.fresh name none NodeType.transform], name)

/-- The names of the children of the node(s) named `p`, in scene order. -/
def childrenOfName (s : Scene) (p : String) : List String :=
  (s.filter fun nd => nd.parent == some p).map SceneNode.name

/-- `RiggingToolsUI.create_rig_template` (main.py, lines 137-153), taking
the rig-name field's text.  Returns the scene and the warnings logged. -/
def create_rig_template (rigText : String) (s : Scene) :
    Scene × List String :=
  let rig_name := pyStrip rigText
  if rig_name = "" then
    (s, ["No rig name has been specified."])
  else
    let (s1, prx_group) := groupEmpty s "prx_grp"
    let (s2, rnd_group) := groupEmpty s1 "render_grp"
    let (s3, geo_group) := groupNodes s2 [prx_group, rnd_group] "geo_grp"
    let (s4, anim_group) := groupEmpty s3 "anim_grp"
    let (s5, export_group) := groupEmpty s4 "export_grp"
    let (s6, joint_group) := groupNodes s5 [anim_group, export_group] "jnt_grp"
    let (s7, ctrl_group) := groupEmpty s6 "ctrl_grp"
    let (s8, _) := groupNodes s7 [geo_group, joint_group, ctrl_group] rig_name
    (s8, [])

/-- With a non-blank rig name, the scene built by `create_rig_template`
from an empty scene, with `r` the stripped rig name. -/
lemma create_rig_template_scene (rigText : String)
    (hne : pyStrip rigText ≠ "") :
    (create_rig_template rigText []).1 =
      [SceneNode.fresh "prx_grp" (some "geo_grp") NodeType.transform,
       SceneNode.fresh "render_grp" (some "geo_grp") NodeType.transform,
       SceneNode.fresh "geo_grp" (some (pyStrip rigText)) NodeType.transform,
       SceneNode.fresh "anim_grp" (some "jnt_grp") NodeType.transform,
       SceneNode.fresh "export_grp" (some "jnt_grp") NodeType.transform,
       SceneNode.fresh "jnt_grp" (some (pyStrip rigText)) NodeType.transform,
       SceneNode.fresh "ctrl_grp" (some (pyStrip rigText)) NodeType.transform,
       SceneNode.fresh (pyStrip rigText) none NodeType.transform] := by
  unfold create_rig_template
  rw [if_neg hne]
  rfl

/-- C3 counterexample: the rig name `geo_grp` is non-blank, yet the group
`geo_grp` does not end up with exactly the children
`prx_grp`, `render_grp` (the root, also named `geo_grp`, makes every
top-level group a by-name child of `geo_grp` as well). -/
theorem create_rig_template_clash_counterexample :
    pyStrip "geo_grp" ≠ "" ∧
    childrenOfName ((create_rig_template "geo_grp" []).1) "geo_grp" ≠
      ["prx_grp", "render_grp"] := by
  decide

/-- C3 (amended): for every rig name whose stripped form is non-blank and
distinct from the seven fixed group names, `create_rig_template` on an
empty scene yields a hierarchy in which `geo_grp` has exactly the children
`prx_grp`, `render_grp`; `jnt_grp` exactly `anim_grp`, `export_grp`; and
the root named by the input exactly `geo_grp`, `jnt_grp`, `ctrl_grp`. -/
theorem create_rig_template_hierarchy (rigText : String)
    (hne : pyStrip rigText ≠ "")
    (hfresh : pyStrip rigText ∉ ["prx_grp", "render_grp", "geo_grp",
      "anim_grp", "export_grp", "jnt_grp", "ctrl_grp"]) :
    childrenOfName ((create_rig_template rigText []).1) "geo_grp" =
      ["prx_grp", "render_grp"] ∧
    childrenOfName ((create_rig_template rigText []).1) "jnt_grp" =
      ["anim_grp", "export_grp"] ∧
    childrenOfName ((create_rig_template rigText []).1) (pyStrip rigText) =
      ["geo_grp", "jnt_grp", "ctrl_grp"] := by
  simp only [List.mem_cons, List.not_mem_nil, or_false, not_or] at hfresh
  obtain ⟨-, -, hgeo, -, -, hjnt, -⟩ := hfresh
  rw [create_rig_template_scene rigText hne]
  refine ⟨?_, ?_, ?_⟩ <;>
    simp [childrenOfName, SceneNode.fresh, List.filter_cons, beq_iff_eq,
      hgeo, hjnt, Ne.symm hgeo, Ne.symm hjnt]

/-- C3 witness: the amended theorem at the concrete rig name `charA`. -/
theorem create_rig_template_hierarchy_witness :
    childrenOfName ((create_rig_template "charA" []).1) "geo_grp" =
      ["prx_grp", "render_grp"] ∧
    childrenOfName ((create_rig_template "charA" []).1) "jnt_grp" =
      ["anim_grp", "export_grp"] ∧
    childrenOfName ((create_rig_template "charA" []).1) (pyStrip "charA") =
      ["geo_grp", "jnt_grp", "ctrl_grp"] :=
  create_rig_template_hierarchy "charA" (by decide) (by decide)

/-- C9: with a blank or whitespace-only rig name, `create_rig_template`
leaves any scene unchanged and logs exactly one warning. -/
theorem create_rig_template_blank (rigText : String) (s : Scene)
    (h : pyStrip rigText = "") :
    create_rig_template rigText s =
      (s, ["No rig name has been specified."]) := by
  unfold create_rig_template
  rw [if_pos h]

/-- C9 witness: the theorem at the whitespace-only rig name, on a one-node
scene that is left untouched. -/
theorem create_rig_template_blank_witness :
    create_rig_template "   "
        [SceneNode.fresh "pCube1" none NodeType.transform] =
      ([SceneNode.fresh "pCube1" none NodeType.transform],
       ["No rig name has been specified."]) :=
  create_rig_template_blank "   "
    [SceneNode.fresh "pCube1" none NodeType.transform] (by decide)

/-! ## Dialog state and colors (main.py)

`main.py` imports `cmds`, `OpenMayaUI`, `om`, `QtWidgets`, `QtCore`,
`wrapInstance` and `logging` — and never `QtGui`.  The preset color button
handlers built in `create_connections` evaluate `QtGui.QColor(...)` at
click time, and the `set_color` signature annotation `QtGui.QColor` is
evaluated when the class body executes; both look the name `QtGui` up and
fail with `NameError`. -/

/-- The module-level names bound by the import statements of `main.py`. -/
def mainModuleImports : List String :=
  ["cmds", "OpenMayaUI", "om", "QtWidgets", "QtCore", "wrapInstance",
   "logging"]

/-- Whether a global name used inside `main.py` resolves against its
imports. -/
def nameResolves (n : String) : Bool :=
  mainModuleImports.contains n

/-- A `QtGui.QColor`: 8-bit RGB channels.  `redF`/`greenF`/`blueF` return
the channel scaled to `[0,1]`. -/
structure QColor where
  r : ℕ
  g : ℕ
  b : ℕ
  deriving DecidableEq, Repr

def QColor.redF (c : QColor) : ℚ := c.r / 255

def QColor.greenF (c : QColor) : ℚ := c.g / 255

def QColor.blueF (c : QColor) : ℚ := c.b / 255

/-- The three preset color buttons wired in `create_connections`. -/
inductive PresetButton where
  | red
  | blue
  | yellow
  deriving DecidableEq, Repr

/-- The `QColor` each preset handler would construct
(`QtGui.QColor("red")` etc.). -/
def presetQColor : PresetButton → QColor
  | PresetButton.red => ⟨255, 0, 0⟩
  | PresetButton.blue => ⟨0, 0, 255⟩
  | PresetButton.yellow => ⟨255, 255, 0⟩

/-- The dialog's transient state: the stored controller color
(`self.ctrl_color`, `None` at construction), the preview swatch's color
(`None` = the initial gray stylesheet), the custom-name checkbox and the
two text fields. -/
structure DialogState where
  ctrl_color : Option (ℚ × ℚ × ℚ)
  swatch : Option QColor
  custom_name_checked : Bool
  ctrl_name_text : String
  rig_temp_name_text : String
  deriving DecidableEq, Repr

/-- The dialog right after `__init__`: `self.ctrl_color = None`, gray
swatch, checkbox unchecked, empty fields. -/
def initialDialog : DialogState :=
  ⟨none, none, false, "", ""⟩

/-- `RiggingToolsUI.set_color`: store `(redF, greenF, blueF)` in
`self.ctrl_color` and recolor the preview swatch. -/
def set_color (ui : DialogState) (color : QColor) : DialogState :=
  { ui with
    ctrl_color := some (color.redF, color.greenF, color.blueF),
    swatch := some color }

/-- A preset color button click: the lambda wired in `create_connections`
evaluates `QtGui.QColor(...)`, so it raises `NameError` unless `QtGui`
resolves; only then would `set_color` run. -/
def presetButtonClick (b : PresetButton) (ui : DialogState) :
    Except PyErr DialogState :=
  if nameResolves "QtGui" then
    Except.ok (set_color ui (presetQColor b))
  else
    Except.error (PyErr.nameError "QtGui")

/-- `RiggingToolsUI.get_picker_color`: the picker's outcome is `some c`
for a valid picked color and `none` when cancelled (invalid). -/
def get_picker_color (picked : Option QColor) (ui : DialogState) :
    DialogState :=
  match picked with
  | some c => set_color ui c
  | none => ui

/-- C10: every preset color button handler raises `NameError` for `QtGui`
(leaving no stored color and no swatch update), because `QtGui` does not
resolve against the module's imports — the same unresolved name the
`set_color` annotation evaluates at class-definition time. -/
theorem presetButtonClick_nameError (b : PresetButton) (ui : DialogState) :
    presetButtonClick b ui = Except.error (PyErr.nameError "QtGui") ∧
    nameResolves "QtGui" = false := by
  constructor
  · cases b <;> rfl
  · rfl

/-- C7 divergence, evaluated on the fresh dialog: clicking the red preset
button raises `NameError` and stores no color, while the picker path with
the equivalent color (255,0,0) stores the triple (1,0,0) — the two paths
do not produce the same stored-color representation. -/
theorem preset_vs_picker_divergence :
    presetButtonClick PresetButton.red initialDialog =
      Except.error (PyErr.nameError "QtGui") ∧
    (get_picker_color (some ⟨255, 0, 0⟩) initialDialog).ctrl_color =
      some (1, 0, 0) ∧
    (initialDialog.ctrl_color = none) := by
  refine ⟨rfl, ?_, rfl⟩
  show some ((255 : ℚ) / 255, (0 : ℚ) / 255, (0 : ℚ) / 255) = some (1, 0, 0)
  norm_num

/-! ## Host state and controller creation (main.py)

The host carries the scene and the active selection.  Creation commands
(`cmds.circle`, `cmds.group`) also make the new node the active selection,
as Maya does.  Functions that mutate the host and may raise return, on the
error path, the host state reached at the raise together with the error. -/

/-- One entry of the active selection: a DAG item with its (full path)
name, or a non-DAG item (shader etc.), which `get_selected_object_name`
skips via its `RuntimeError` handler. -/
inductive SelEntry where
  | dagItem (path : String)
  | nonDag
  deriving DecidableEq, Repr

/-- The host application's state: scene graph plus active selection. -/
structure HostState where
  scene : Scene
  activeSelection : List SelEntry
  deriving DecidableEq, Repr

/-- `RiggingToolsUI.get_selected_object_name`: the names yielded by the
generator — DAG items of the active selection in order, non-DAG items
skipped. -/
def get_selected_object_name (h : HostState) : List String :=
  h.activeSelection.filterMap fun e =>
    match e with
    | SelEntry.dagItem p => some p
    | SelEntry.nonDag => none

/-- `cmds.circle(name=n)`: create a transform named `n` carrying a
`nurbsCurve` shape named `n ++ "Shape"`, select it, and return the result
list (the construction-history node Maya also returns is not modelled). -/
def circleCmd (h : HostState) (name : String) : HostState × List String :=
  ({ scene := h.scene ++
        [SceneNode.fresh name none NodeType.transform,
         SceneNode.fresh (name ++ "Shape") (some name) NodeType.nurbsCurve],
     activeSelection := [SelEntry.dagItem name] },
   [name])

/-- `cmds.group(objs, name=n)` on the host: reparent the listed nodes under
a new transform and select it. -/
def groupCmd (h : HostState) (children : List String) (name : String) :
    HostState × String :=
  ({ scene := (groupNodes h.scene children name).1,
     activeSelection := [SelEntry.dagItem name] },
   name)

/-- `om.MGlobal.getSelectionListByName(n)` followed by `getDagPath(0)`:
the first node named `n`, or a raised error when none exists. -/
def getNodeByName (s : Scene) (n : String) : Except PyErr SceneNode :=
  match s.find? (fun nd => nd.name == n) with
  | some nd => Except.ok nd
  | none => Except.error (PyErr.runtimeError ("Object does not exist: " ++ n))

/-- `RiggingToolsUI.match_objects_space`: copy the world translation of
`target_object` onto `move_object` (nodes are looked up by name; world
translation is stored directly on the node). -/
def match_objects_space (h : HostState) (target_object move_object : String) :
    Except PyErr HostState :=
  match getNodeByName h.scene target_object with
  | Except.error e => Except.error e
  | Except.ok tgt =>
    match getNodeByName h.scene move_object with
    | Except.error e => Except.error e
    | Except.ok _ =>
      Except.ok
        { h with
          scene := h.scene.map fun nd =>
            if nd.name == move_object then { nd with pos := tgt.pos }
            else nd }

/-- `cmds.listRelatives(objs, type="nurbsCurve", fullPath=True)`: the
`nurbsCurve` children of the listed objects, or `None` (modelled `none`)
when there are no matches. -/
def listRelativesCurves (s : Scene) (objs : List String) :
    Option (List String) :=
  let shapes := (s.filter fun nd =>
      nd.typ == NodeType.nurbsCurve &&
        match nd.parent with
        | some p => objs.contains p
        | none => false).map SceneNode.name
  if shapes.isEmpty then none else some shapes

/-- `RiggingToolsUI.set_controller_color`: unpack `self.ctrl_color`
(raising `TypeError` when it is still `None`), then set the three
display-override attributes on every `nurbsCurve` shape under the
controller. -/
def set_controller_color (color : Option (ℚ × ℚ × ℚ))
    (controller : List String) (h : HostState) :
    Except (HostState × PyErr) HostState :=
  match color with
  | none =>
    Except.error (h, PyErr.typeError "cannot unpack non-iterable NoneType")
  | some (r, g, b) =>
    match listRelativesCurves h.scene controller with
    | none =>
      Except.error (h, PyErr.typeError "NoneType object is not iterable")
    | some shapes =>
      Except.ok
        { h with
          scene := h.scene.map fun nd =>
            if shapes.contains nd.name then
              { nd with
                overrideEnabled := true,
                overrideRGBColors := true,
                overrideColorRGB := some (r, g, b) }
            else nd }

/-- Python `s.split(sep)[-1]` for a one-character separator: the segment
after the last occurrence of `sep` (the whole string when `sep` is
absent). -/
def pySplitLast (s : String) (sep : Char) : String :=
  ⟨(s.data.reverse.takeWhile (fun c => c ≠ sep)).reverse⟩

/-- `RiggingToolsUI.create_curve_offset_group`: take the short name
(`split("|")[-1]`), make it unique, create the circle and its offset
group, align the offset group to the target unless in custom-name mode,
then color the controller.  The fuel `h.scene.length + 1` suffices for the
unique-name loop on any scene; `none` from the loop is mapped to a raised
error. -/
def create_curve_offset_group (ui : DialogState) (h : HostState)
    (controller_name : String) : Except (HostState × PyErr) HostState :=
  let short0 := pySplitLast controller_name '|'
  match unique_ctrl_name (objExists h.scene) short0 (h.scene.length + 1) with
  | none => Except.error (h, PyErr.runtimeError "unique name loop diverged")
  | some short_controller_name =>
    let (h1, controller) := circleCmd h short_controller_name
    let (h2, offset_group) :=
      groupCmd h1 controller (short_controller_name ++ "_offset")
    if ui.custom_name_checked = false then
      match match_objects_space h2 controller_name offset_group with
      | Except.error e => Except.error (h2, e)
      | Except.ok h3 => set_controller_color ui.ctrl_color controller h3
    else
      set_controller_color ui.ctrl_color controller h2

/-- `RiggingToolsUI.create_blank_controller`: snapshot the selection; in
custom-name mode create one controller from the (stripped) typed name
(warning and early return when blank), otherwise one controller per
selected DAG object; finally restore the snapshot (log messages are not
modelled). -/
def create_blank_controller (ui : DialogState) (h : HostState) :
    Except (HostState × PyErr) HostState :=
  let orig_sel := h.activeSelection
  if ui.custom_name_checked then
    let button_name := pyStrip ui.ctrl_name_text
    if button_name = "" then
      Except.ok h
    else
      match create_curve_offset_group ui h button_name with
      | Except.error e => Except.error e
      | Except.ok h1 => Except.ok { h1 with activeSelection := orig_sel }
  else
    match (get_selected_object_name h).foldlM
        (fun acc obj => create_curve_offset_group ui acc obj) h with
    | Except.error e => Except.error e
    | Except.ok h1 => Except.ok { h1 with activeSelection := orig_sel }

/-- C8: whenever the dialog is not in custom-name mode (the multi-object
selection flow) and `create_blank_controller` completes without raising,
the active selection afterwards equals — in membership and order — the
active selection it started from. -/
theorem create_blank_controller_restores_selection (ui : DialogState)
    (h h' : HostState) (hmode : ui.custom_name_checked = false)
    (hok : create_blank_controller ui h = Except.ok h') :
    h'.activeSelection = h.activeSelection := by
  unfold create_blank_controller at hok
  rw [hmode] at hok
  simp only [Bool.false_eq_true, if_false] at hok
  cases hfold : (get_selected_object_name h).foldlM
      (fun acc obj => create_curve_offset_group ui acc obj) h with
  | error e =>
    rw [hfold] at hok
    exact absurd hok (by simp)
  | ok h1 =>
    rw [hfold] at hok
    have := (Except.ok.injEq _ _).mp hok
    rw [← this]

/-- The dialog used in the C8 witness: color stored, custom-name mode off. -/
def uiMulti : DialogState := ⟨some (1, 0, 0), some ⟨255, 0, 0⟩, false, "", ""⟩

/-- The host used in the C8 witness: two transforms, both selected. -/
def hostMulti : HostState :=
  ⟨[SceneNode.fresh "a" none NodeType.transform,
    SceneNode.fresh "b" none NodeType.transform],
   [SelEntry.dagItem "a", SelEntry.dagItem "b"]⟩

/-- The host state `create_blank_controller` reaches on the C8 witness
input (the run succeeds, so the error arm is never taken). -/
def hostMultiOut : HostState :=
  match create_blank_controller uiMulti hostMulti with
  | Except.ok h1 => h1
  | Except.error (h1, _) => h1

/-- C8 witness: the theorem on the concrete two-object selection. -/
theorem create_blank_controller_restores_selection_witness :
    hostMultiOut.activeSelection = hostMulti.activeSelection :=
  create_blank_controller_restores_selection uiMulti hostMulti hostMultiOut
    rfl (by rfl)

/-- The dialog of the C5 run: custom-name mode, no stored color. -/
def uiNoColor : DialogState := ⟨none, none, true, "pCube1", ""⟩

/-- The empty host the C5 run starts from. -/
def hostEmpty : HostState := ⟨[], []⟩

/-- The host state at which the C5 run raises. -/
def hostNoColorOut : HostState :=
  match create_curve_offset_group uiNoColor hostEmpty "pCube1" with
  | Except.ok h1 => h1
  | Except.error (h1, _) => h1

/-- C5: with the stored color unset, `create_curve_offset_group` raises a
`TypeError` from unpacking `None` — but only after the circle curve and
the offset group have already been added to the scene (which started
empty), contradicting report-before-creation. -/
theorem create_curve_offset_group_no_color :
    create_curve_offset_group uiNoColor hostEmpty "pCube1" =
      Except.error
        (hostNoColorOut, PyErr.typeError "cannot unpack non-iterable NoneType") ∧
    objExists hostNoColorOut.scene "pCube1_ctrl" = true ∧
    objExists hostNoColorOut.scene "pCube1_ctrl_offset" = true ∧
    hostEmpty.scene = [] :=
  ⟨by rfl, by rfl, by rfl, rfl⟩

/-! ## `create_joint` (centroid_joint_creation.py, lines 45-72)

When `cmds.ls(name, type="joint")` finds a duplicate, the code computes
`joint_name = name.split(sufix)[0]`, immediately overwrites it with
`f"{name}{value:03d}_{sufix}"` — and `value` is defined nowhere, so the
f-string raises `NameError` before any scene mutation.  Only the
no-duplicate branch ever creates a joint. -/

/-- `cmds.ls(name, type="joint")`. -/
def lsJoints (s : Scene) (name : String) : List String :=
  (s.filter fun nd => nd.name == name && nd.typ == NodeType.joint).map
    SceneNode.name

/-- `cmds.joint(name=n)`: add a joint node (Maya's parenting of new joints
under the current selection is not modelled). -/
def jointCmd (s : Scene) (name : String) : Scene × String :=
  (s ++ [SceneNode.fresh name none NodeType.joint], name)

/-- `cmds.move(x, y, z, obj)`. -/
def moveCmd (s : Scene) (x y z : ℚ) (obj : String) : Scene :=
  s.map fun nd =>
    if nd.name == obj then { nd with pos := ⟨x, y, z⟩ } else nd

/-- `create_joint` from `centroid_joint_creation.py`.  The duplicate
branch raises `NameError` for the undefined `value`; the fresh branch
creates `{name}_{sufix}`, moving it when a position was supplied
(`position[0..2]`; a 1- or 2-element position raises `IndexError`). -/
def create_joint (name sufix : String) (position : List ℚ) (s : Scene) :
    Except (Scene × PyErr) (Scene × String) :=
  let find_dup_joints := lsJoints s name
  if find_dup_joints.isEmpty then
    let joint_name := name ++ "_" ++ sufix
    let (s1, joint_created) := jointCmd s joint_name
    match position with
    | [] => Except.ok (s1, joint_created)
    | x :: y :: z :: _ =>
      Except.ok (moveCmd s1 x y z joint_created, joint_created)
    | _ =>
      Except.error (s1, PyErr.runtimeError "IndexError: list index out of range")
  else
    Except.error (s, PyErr.nameError "value")

/-- C4: without a duplicate, `create_joint` returns `test_jnt` as claimed;
but with a joint named `test` already in the scene it raises `NameError`
(undefined `value`) instead of returning a `test_NN_jnt` disambiguation. -/
theorem create_joint_duplicate_nameError :
    create_joint "test" "jnt" [] [] =
      Except.ok ([SceneNode.fresh "test_jnt" none NodeType.joint],
        "test_jnt") ∧
    create_joint "test" "jnt" []
        [SceneNode.fresh "test" none NodeType.joint] =
      Except.error ([SceneNode.fresh "test" none NodeType.joint],
        PyErr.nameError "value") :=
  ⟨rfl, rfl⟩

end McRig
